import Mathlib

/-!
Shallow embedding of the `learn_wgpu` renderer core
(`src/lib.rs`, `src/state.rs`, `src/renderer_backend/texture.rs`,
`src/renderer_backend/pipeline_builder.rs`).

Modelling conventions:
* `u32` sizes become `Nat` (no arithmetic is performed on them, so no
  wrap-around can matter).
* `f32` scalars that the program only ever produces by exact operations
  (integer-valued grid coordinates, width/height ratios of small integers,
  literals) are modelled as `ℚ`; quaternion components produced by
  trigonometric functions are modelled as exact reals (`ℝ`).
* GPU-side objects (surface, device, queue, encoders) are modelled by the
  observable trace of commands the code issues against them; each wgpu call
  in `State::render` and the event loop becomes one trace element.
* Fallible external collaborators (`image::load_from_memory`,
  `fs::read_to_string`, WGSL validation) are parameters of the functions
  that call them, so theorems quantify over every possible collaborator
  behaviour.
-/

namespace LearnWgpu

/-- Model of `winit::dpi::PhysicalSize<u32>`. -/
structure PhysicalSize where
  width : Nat
  height : Nat
deriving Repr, DecidableEq

/-- Model of `wgpu::TextureFormat`: an identifying tag plus the answer the
real API gives for `TextureFormat::is_srgb`. -/
structure TextureFormat where
  tag : Nat
  srgb : Bool
deriving Repr, DecidableEq

/-- `wgpu::TextureFormat::is_srgb`. -/
def TextureFormat.is_srgb (f : TextureFormat) : Bool := f.srgb

/-- Model of `wgpu::SurfaceConfiguration` (the fields
`State::get_surface_configuration` computes from its inputs; the constant
GPU-usage bitflags and the empty `view_formats` list carry no information
and are omitted). -/
structure SurfaceConfiguration where
  format : TextureFormat
  width : Nat
  height : Nat
  present_mode : Nat
  alpha_mode : Nat
  desired_maximum_frame_latency : Nat
deriving Repr, DecidableEq

/-- Model of `wgpu::SurfaceCapabilities`: the lists the adapter reports. -/
structure SurfaceCapabilities where
  formats : List TextureFormat
  present_modes : List Nat
  alpha_modes : List Nat
deriving Repr, DecidableEq

/-- Exact-rational 3-vector, modelling `cgmath::Vector3<f32>` at the
integer-valued coordinates this program uses. -/
structure Vec3 where
  x : ℚ
  y : ℚ
  z : ℚ
deriving Repr, DecidableEq

/-- Componentwise subtraction, `cgmath`'s `Sub` for `Vector3`. -/
def Vec3.sub (a b : Vec3) : Vec3 := ⟨a.x - b.x, a.y - b.y, a.z - b.z⟩

/-- The zero vector; `cgmath`'s `Vector3::is_zero` is exact comparison
against it. -/
def Vec3.zero : Vec3 := ⟨0, 0, 0⟩

/-- Model of the `Camera` struct (fields as initialised in `State::new`,
`src/state.rs` lines 119-127). -/
structure Camera where
  eye : Vec3
  target : Vec3
  up : Vec3
  aspect : ℚ
  fovy : ℚ
  znear : ℚ
  zfar : ℚ
deriving Repr, DecidableEq

/-- `src/state.rs` line 48: `NUM_INSTANCES_PER_ROW`. -/
def NUM_INSTANCES_PER_ROW : Nat := 10

/-- `src/state.rs` lines 49-50: `INSTANCE_DISPLACEMENT
= (10 * 0.5, 0, 10 * 0.5)`, exact in `f32`. -/
def INSTANCE_DISPLACEMENT : Vec3 := ⟨5, 0, 5⟩

/-- `src/state.rs` line 42: the index list `INDICES` (nine `u16` values). -/
def INDICES : List Nat := [0, 1, 4, 1, 2, 4, 2, 3, 4]

/-- The fields of `State` the claims are about (`src/state.rs` lines 52-72).
Buffers, bind groups, the pipeline and the texture are immutable handles
whose identity the render trace records symbolically. -/
structure State where
  config : SurfaceConfiguration
  size : PhysicalSize
  camera : Camera
  num_indices : Nat
  num_instances : Nat
deriving Repr, DecidableEq

/-- `State::resize` (`src/state.rs` lines 229-237).  Returns the new state
together with whether `surface.configure` was called. -/
def State.resize (s : State) (new_size : PhysicalSize) : State × Bool :=
  if new_size.width < 1 ∧ new_size.height < 1 then (s, false)
  else
    ({ s with
        size := new_size,
        config := { s.config with width := new_size.width, height := new_size.height } },
      true)

/-- `State::get_surface_configuration` (`src/state.rs` lines 331-354).
`none` models the panic of `surface_capabilities.formats[0]` /
`present_modes[0]` / `alpha_modes[0]` on an empty capability list. -/
def get_surface_configuration (caps : SurfaceCapabilities) (size : PhysicalSize) :
    Option SurfaceConfiguration :=
  match caps.formats, caps.present_modes, caps.alpha_modes with
  | f0 :: fs, p0 :: _, a0 :: _ =>
    some
      { format := ((f0 :: fs).filter (fun f => f.is_srgb)).headD f0
        width := size.width
        height := size.height
        present_mode := p0
        alpha_mode := a0
        desired_maximum_frame_latency := 2 }
  | _, _, _ => none

/-- The `Camera` literal built in `State::new` (`src/state.rs` lines
119-127); `aspect = config.width / config.height`. -/
def init_camera (config : SurfaceConfiguration) : Camera :=
  { eye := ⟨0, 1, 2⟩
    target := ⟨0, 0, 0⟩
    up := ⟨0, 1, 0⟩
    aspect := (config.width : ℚ) / (config.height : ℚ)
    fovy := 45
    znear := 1 / 10
    zfar := 100 }

/-- Model of `wgpu::SurfaceError`. -/
inductive SurfaceError where
  | timeout
  | outdated
  | lost
  | outOfMemory
deriving Repr, DecidableEq

/-- Symbolic names for the bind groups `State::render` binds. -/
inductive BindGroupId where
  | diffuse
  | cameraGroup
deriving Repr, DecidableEq

/-- Symbolic names for the buffers `State::render` binds. -/
inductive BufferId where
  | vertex
  | instanceBuf
  | index
deriving Repr, DecidableEq

/-- Model of `wgpu::IndexFormat`. -/
inductive MIndexFormat where
  | uint16
  | uint32
deriving Repr, DecidableEq

/-- Exact-rational RGBA colour (`wgpu::Color` idealised over `ℚ`). -/
structure ColorRGBA where
  r : ℚ
  g : ℚ
  b : ℚ
  a : ℚ
deriving Repr, DecidableEq

/-- One GPU-facing call recorded by `State::render`. -/
inductive GpuCmd where
  | begin_render_pass (clear : ColorRGBA)
  | set_pipeline
  | set_bind_group (slot : Nat) (group : BindGroupId)
  | set_vertex_buffer (slot : Nat) (buf : BufferId)
  | set_index_buffer (buf : BufferId) (fmt : MIndexFormat)
  | draw_indexed (firstIndex lastIndex : Nat) (baseVertex : Int)
      (firstInstance lastInstance : Nat)
  | end_render_pass
  | submit (commandBufferCount : Nat)
  | present
deriving Repr, DecidableEq

/-- The clear colour of the render pass (`src/state.rs` lines 250-257). -/
def background_color : ColorRGBA := ⟨1 / 10, 2 / 10, 3 / 10, 1⟩

/-- `State::render` (`src/state.rs` lines 239-286).  `acquire` is the
outcome of `surface.get_current_texture()` (`none` = success).  Returns the
state after the call, the recorded GPU trace and the returned error, if
any: on acquisition failure the `?` operator returns before the command
encoder is created, so the trace is empty and the state untouched. -/
def State.render (s : State) (acquire : Option SurfaceError) :
    State × List GpuCmd × Option SurfaceError :=
  match acquire with
  | some e => (s, [], some e)
  | none =>
    (s,
      [ GpuCmd.begin_render_pass background_color
      , GpuCmd.set_pipeline
      , GpuCmd.set_bind_group 0 BindGroupId.diffuse
      , GpuCmd.set_bind_group 1 BindGroupId.cameraGroup
      , GpuCmd.set_vertex_buffer 0 BufferId.vertex
      , GpuCmd.set_vertex_buffer 1 BufferId.instanceBuf
      , GpuCmd.set_index_buffer BufferId.index MIndexFormat.uint16
      , GpuCmd.draw_indexed 0 s.num_indices 0 0 s.num_instances
      , GpuCmd.end_render_pass
      , GpuCmd.submit 1
      , GpuCmd.present ],
      none)

/-- The events `run`'s `event_loop.run` closure distinguishes
(`src/lib.rs` lines 71-91). -/
inductive MEvent where
  | user_event
  | close_requested
  | resized (size : PhysicalSize)
  | redraw_requested
  | other
deriving Repr, DecidableEq

/-- The calls the event-loop closure makes on `state` / `elwt` / stderr.
`call_update` is included so that the presence or absence of a
`state.update()` call is expressible; the closure in `run` never makes
it. -/
inductive LoopCall where
  | request_redraw
  | call_resize (size : PhysicalSize)
  | call_update
  | call_render
  | log_error (e : SurfaceError)
  | exit_loop
deriving Repr, DecidableEq

/-- One step of the event-loop closure in `run` (`src/lib.rs` lines 71-91):
given the current state, the event and the surface-acquisition outcome the
next `render` would see, returns the state afterwards, the calls made, and
the GPU commands recorded this tick. -/
def handle_event (s : State) (ev : MEvent) (acquire : Option SurfaceError) :
    State × List LoopCall × List GpuCmd :=
  match ev with
  | MEvent.user_event => (s, [LoopCall.request_redraw], [])
  | MEvent.close_requested => (s, [LoopCall.exit_loop], [])
  | MEvent.resized sz => ((s.resize sz).1, [LoopCall.call_resize sz], [])
  | MEvent.redraw_requested =>
    match s.render acquire with
    | (s1, cmds, none) => (s1, [LoopCall.call_render], cmds)
    | (s1, cmds, some SurfaceError.lost) =>
      ((s1.resize s1.size).1, [LoopCall.call_render, LoopCall.call_resize s1.size], cmds)
    | (s1, cmds, some SurfaceError.outOfMemory) =>
      (s1, [LoopCall.call_render, LoopCall.exit_loop], cmds)
    | (s1, cmds, some e) =>
      (s1, [LoopCall.call_render, LoopCall.log_error e], cmds)
  | MEvent.other => (s, [], [])

/-- Real-valued 3-vector: exact-real semantics of the `f32` vectors that
`cgmath` normalizes and feeds to trigonometry. -/
structure Vec3R where
  x : ℝ
  y : ℝ
  z : ℝ

/-- Embed the exact rational coordinates into `ℝ`. -/
noncomputable def Vec3.toR (v : Vec3) : Vec3R := ⟨(v.x : ℝ), (v.y : ℝ), (v.z : ℝ)⟩

/-- Scalar multiple of a real vector. -/
noncomputable def Vec3R.smul (c : ℝ) (v : Vec3R) : Vec3R := ⟨c * v.x, c * v.y, c * v.z⟩

/-- `cgmath` vector magnitude. -/
noncomputable def Vec3R.magnitude (v : Vec3R) : ℝ :=
  Real.sqrt (v.x ^ 2 + v.y ^ 2 + v.z ^ 2)

/-- `cgmath`'s `InnerSpace::normalize`: `self * (1 / magnitude)`. -/
noncomputable def Vec3R.normalize (v : Vec3R) : Vec3R :=
  Vec3R.smul (1 / v.magnitude) v

/-- `cgmath::Vector3::unit_z()`. -/
def unit_zR : Vec3R := ⟨0, 0, 1⟩

/-- Model of `cgmath::Quaternion<f32>`: scalar part `s` and vector part
`v`, with exact-real components. -/
structure MQuat where
  s : ℝ
  v : Vec3R

/-- The identity quaternion `(1, (0,0,0))`. -/
def MQuat.identity : MQuat := ⟨1, ⟨0, 0, 0⟩⟩

/-- Degrees to radians, `cgmath`'s `Rad::from(Deg(d))`. -/
noncomputable def degToRad (d : ℝ) : ℝ := d * Real.pi / 180

/-- `cgmath::Quaternion::from_axis_angle(axis, Deg(d))`:
scalar part `cos(θ/2)`, vector part `axis * sin(θ/2)`. -/
noncomputable def from_axis_angle (axis : Vec3R) (d : ℝ) : MQuat :=
  ⟨Real.cos (degToRad d / 2), Vec3R.smul (Real.sin (degToRad d / 2)) axis⟩

/-- Model of the `Instance` struct as constructed in `State::new`
(`src/state.rs` lines 190-193): a position and a rotation quaternion. -/
structure Instance where
  position : Vec3
  rotation : MQuat

/-- The body of the per-cell closure in `State::new`
(`src/state.rs` lines 182-193): `position = (x, 0, z) - INSTANCE_DISPLACEMENT`;
rotation is `from_axis_angle(unit_z, Deg(0))` when `position.is_zero()`,
else `from_axis_angle(position.normalize(), Deg(45))`. -/
noncomputable def make_instance (x z : Nat) : Instance :=
  let position := Vec3.sub ⟨(x : ℚ), 0, (z : ℚ)⟩ INSTANCE_DISPLACEMENT
  let rotation :=
    if position = Vec3.zero then from_axis_angle unit_zR 0
    else from_axis_angle (Vec3R.normalize position.toR) 45
  ⟨position, rotation⟩

/-- The instance grid of `State::new` (`src/state.rs` lines 180-195):
`(0..10).flat_map(|z| (0..10).map(|x| ...)).collect()`. -/
noncomputable def make_instances : List Instance :=
  (List.range NUM_INSTANCES_PER_ROW).flatMap fun z =>
    (List.range NUM_INSTANCES_PER_ROW).map fun x => make_instance x z

/-- The part of `State::new` (`src/state.rs` lines 74-227) that the claims
observe: the surface configuration computed from the adapter capabilities
and the window size, the camera built from that configuration,
`num_indices = INDICES.len()` and the generated instance list's length.
`none` models the `unwrap` panics of `State::new` when the adapter reports
empty capability lists. -/
noncomputable def init_state (caps : SurfaceCapabilities) (size : PhysicalSize) :
    Option State :=
  (get_surface_configuration caps size).map fun config =>
    { config := config
      size := size
      camera := init_camera config
      num_indices := INDICES.length
      num_instances := make_instances.length }

/-- A concrete state with the shape `State::new` produces for a 450-by-400
window whose adapter reports one non-sRGB and one sRGB format. -/
def test_caps : SurfaceCapabilities :=
  ⟨[⟨0, false⟩, ⟨1, true⟩], [0], [0]⟩

/-- The surface configuration `test_caps` yields for 450 by 400. -/
def test_config : SurfaceConfiguration :=
  { format := ⟨1, true⟩
    width := 450
    height := 400
    present_mode := 0
    alpha_mode := 0
    desired_maximum_frame_latency := 2 }

/-- Concrete post-`State::new` state for the 450-by-400 window:
`num_indices = INDICES.len() = 9`, one hundred instances. -/
def test_state : State :=
  { config := test_config
    size := ⟨450, 400⟩
    camera := init_camera test_config
    num_indices := INDICES.length
    num_instances := 100 }

/-- A decoded image as the `image` crate reports it: its dimensions (the
pixel payload plays no part in any claim). -/
structure MImage where
  width : Nat
  height : Nat
deriving Repr, DecidableEq

/-- The observable result of `Texture::from_image`
(`src/renderer_backend/texture.rs` lines 25-87): a texture sized to the
decoded image's dimensions, in `Rgba8UnormSrgb`, with its view and
sampler. -/
structure MTexture where
  width : Nat
  height : Nat
  srgb_format : Bool
deriving Repr, DecidableEq

/-- `Texture::from_image` (`src/renderer_backend/texture.rs` lines 25-87):
always succeeds, producing a texture whose extent is `img.dimensions()`
and whose format is `Rgba8UnormSrgb`. -/
def from_image (img : MImage) : Except String MTexture :=
  Except.ok ⟨img.width, img.height, true⟩

/-- `Texture::from_bytes` (`src/renderer_backend/texture.rs` lines 14-23),
parameterised by the external decoder `image::load_from_memory`; the `?`
operator propagates a decode failure as a typed `Err` value. -/
def from_bytes (load_from_memory : List Nat → Except String MImage)
    (bytes : List Nat) : Except String MTexture := do
  let img ← load_from_memory bytes
  from_image img

/-- Model of a built `wgpu::RenderPipeline`, recording the configuration
`PipelineBuilder::build` bakes into it. -/
structure MPipeline where
  source_code : String
  vertex_entry : String
  fragment_entry : String
  pixel_format : TextureFormat
  bind_group_layout_count : Nat
deriving Repr, DecidableEq

/-- Outcome of `PipelineBuilder::build`: the function's return type is
`RenderPipeline` with no error variant, so the only alternative to a
pipeline is a process abort (`unwrap` / `expect` / wgpu validation
panic). -/
inductive BuildOutcome where
  | ok (p : MPipeline)
  | panic (msg : String)
deriving Repr, DecidableEq

/-- `wgpu::TextureFormat::Rgba8Unorm`, the builder's default pixel format
(not sRGB). -/
def rgba8_unorm : TextureFormat := ⟨2, false⟩

/-- The `PipelineBuilder` struct (`src/renderer_backend/pipeline_builder.rs`
lines 7-12). -/
structure PipelineBuilder where
  shader_filename : String
  vertex_entry : String
  fragment_entry : String
  pixel_format : TextureFormat
deriving Repr, DecidableEq

/-- `PipelineBuilder::builder` (`pipeline_builder.rs` lines 15-23). -/
def PipelineBuilder.builder : PipelineBuilder :=
  { shader_filename := "shader.wgsl"
    vertex_entry := "vs_main"
    fragment_entry := "fs_main"
    pixel_format := rgba8_unorm }

/-- `PipelineBuilder::set_shader_module` (`pipeline_builder.rs` lines
25-37). -/
def PipelineBuilder.set_shader_module (b : PipelineBuilder)
    (shader_filename vertex_entry fragment_entry : String) : PipelineBuilder :=
  { b with
      shader_filename := shader_filename
      vertex_entry := vertex_entry
      fragment_entry := fragment_entry }

/-- `PipelineBuilder::set_pixel_format` (`pipeline_builder.rs` lines
39-44). -/
def PipelineBuilder.set_pixel_format (b : PipelineBuilder)
    (pixel_format : TextureFormat) : PipelineBuilder :=
  { b with pixel_format := pixel_format }

/-- The path `build` reads on native targets (`pipeline_builder.rs` lines
56-63): `current_dir()/src/shaders/<shader_filename>`. -/
def shader_filepath (cwd : String) (b : PipelineBuilder) : String :=
  cwd ++ "/src/shaders/" ++ b.shader_filename

/-- `PipelineBuilder::build` on a native target (`pipeline_builder.rs`
lines 46-118), parameterised by the filesystem (`read_to_string`) and by
WGSL validation (`wgsl_compiles`; `device.create_shader_module` panics via
wgpu's uncaptured-error handler when validation fails).  A failed file
read hits the `expect` on line 66 and panics; there is no recoverable
error path. -/
def PipelineBuilder.build (b : PipelineBuilder) (cwd : String)
    (read_to_string : String → Option String)
    (wgsl_compiles : String → Bool)
    (bind_group_layout_count : Nat) : BuildOutcome :=
  match read_to_string (shader_filepath cwd b) with
  | none => BuildOutcome.panic "Cannot read the shader source file."
  | some source_code =>
    if wgsl_compiles source_code then
      BuildOutcome.ok
        ⟨source_code, b.vertex_entry, b.fragment_entry, b.pixel_format,
          bind_group_layout_count⟩
    else BuildOutcome.panic "shader module validation failed"

/-- A concrete stand-in decoder: accepts the three-byte JPEG-like input and
reports a 3-by-2 image, rejects everything else. -/
def test_decoder (bytes : List Nat) : Except String MImage :=
  if bytes = [255, 216, 255] then Except.ok ⟨3, 2⟩
  else Except.error "decode failed"

/-- A concrete stand-in filesystem holding exactly one shader file. -/
def test_read_to_string (path : String) : Option String :=
  if path = "/home/app/src/shaders/vertex.wgsl" then some "fn vs_main" else none

/-! ## Helper lemmas -/

/-- `filter`-then-`headD` picks the first element satisfying the predicate,
i.e. agrees with `find?`-then-`getD`. -/
lemma filter_headD_eq_find_getD {α : Type} (p : α → Bool) (l : List α) (d : α) :
    (l.filter p).headD d = (l.find? p).getD d := by
  induction l with
  | nil => rfl
  | cons a t ih =>
    by_cases h : p a
    · simp [List.filter_cons, List.find?_cons, h]
    · simp [List.filter_cons, List.find?_cons, h, ih]

/-- The grid list is the map over a flat index of one hundred cells, with
`x = i % 10` and `z = i / 10`. -/
lemma make_instances_eq_map_range :
    make_instances = (List.range 100).map fun i => make_instance (i % 10) (i / 10) := by
  rfl

/-! ## Claim theorems -/

/-- C1: the claim states that `resize` with either dimension zero is a
no-op.  The guard on `src/state.rs` line 231 is
`new_size.width < 1 && new_size.height < 1`, so at the failing input
`resize(PhysicalSize(0, 5))` from the 450-by-400 state the code stores the
degenerate size 0-by-5 in both the state and the surface configuration and
reconfigures the surface; only a resize with both dimensions zero is a
no-op. -/
theorem c1_resize_zero_width_is_not_noop :
    (test_state.resize ⟨0, 5⟩).1.size = ⟨0, 5⟩ ∧
    (test_state.resize ⟨0, 5⟩).1.config.width = 0 ∧
    (test_state.resize ⟨0, 5⟩).1.config.height = 5 ∧
    (test_state.resize ⟨0, 5⟩).2 = true ∧
    test_state.resize ⟨0, 0⟩ = (test_state, false) := by
  refine ⟨rfl, rfl, rfl, rfl, rfl⟩

/-- C2 counterexample: from the freshly initialised 450-by-400 state
(`aspect = 450/400 = 9/8`), `resize(100, 100)` updates the configuration
to 100-by-100 yet leaves `camera.aspect` at `9/8 ≠ 100/100`; the claimed
invariant `camera.aspect = config.width / config.height` fails after this
resize. -/
theorem c2_aspect_stale_after_resize :
    (init_state test_caps ⟨450, 400⟩).map
        (fun st =>
          ((st.resize ⟨100, 100⟩).1.camera.aspect,
            (st.resize ⟨100, 100⟩).1.config.width,
            (st.resize ⟨100, 100⟩).1.config.height))
      = some (9 / 8, 100, 100) ∧
    (9 / 8 : ℚ) ≠ (100 : ℚ) / (100 : ℚ) := by
  constructor
  · simp [init_state, get_surface_configuration, test_caps, init_camera,
      State.resize]
    norm_num
  · norm_num

/-- C2 amended: `camera.aspect` is computed once, in `State::new`, as the
initial `config.width / config.height`; `State::resize` never touches the
camera, so the aspect keeps its initial value however the surface is
resized. -/
theorem c2_aspect_fixed_at_init :
    (∀ (caps : SurfaceCapabilities) (size : PhysicalSize),
        (init_state caps size).map (fun st => st.camera.aspect)
          = (init_state caps size).map
              (fun _ => (size.width : ℚ) / (size.height : ℚ))) ∧
    (∀ (s : State) (ns : PhysicalSize), ((s.resize ns).1).camera = s.camera) := by
  constructor
  · intro caps size
    obtain ⟨fs, ps, als⟩ := caps
    cases fs <;> cases ps <;> cases als <;>
      simp [init_state, get_surface_configuration, init_camera]
  · intro s ns
    unfold State.resize
    split <;> rfl

/-- C3 counterexample: at the concrete 450-by-400 state, handling
`RedrawRequested` with a successful surface acquisition makes exactly one
state call, `render()`; no `update()` call precedes it, so the camera is
not advanced and the uniform is not rewritten before the draw. -/
theorem c3_redraw_skips_update :
    handle_event test_state MEvent.redraw_requested none
      = (test_state, [LoopCall.call_render],
          [ GpuCmd.begin_render_pass background_color
          , GpuCmd.set_pipeline
          , GpuCmd.set_bind_group 0 BindGroupId.diffuse
          , GpuCmd.set_bind_group 1 BindGroupId.cameraGroup
          , GpuCmd.set_vertex_buffer 0 BufferId.vertex
          , GpuCmd.set_vertex_buffer 1 BufferId.instanceBuf
          , GpuCmd.set_index_buffer BufferId.index MIndexFormat.uint16
          , GpuCmd.draw_indexed 0 9 0 0 100
          , GpuCmd.end_render_pass
          , GpuCmd.submit 1
          , GpuCmd.present ]) ∧
    LoopCall.call_update
      ∉ (handle_event test_state MEvent.redraw_requested none).2.1 := by
  refine ⟨rfl, ?_⟩
  decide

/-- C3 amended: a redraw request triggers `render()` directly — the first
(and on success only) state call of the `RedrawRequested` arm is
`render()` — and the event loop never calls `update()` on any event, so no
camera advance or uniform write happens before a frame's submission. -/
theorem c3_redraw_calls_render_only :
    (∀ (s : State) (ev : MEvent) (acq : Option SurfaceError),
        LoopCall.call_update ∉ (handle_event s ev acq).2.1) ∧
    (∀ (s : State) (acq : Option SurfaceError),
        (handle_event s MEvent.redraw_requested acq).2.1.head?
          = some LoopCall.call_render) := by
  constructor
  · intro s ev acq
    cases ev <;> try simp [handle_event, State.render]
    · cases acq with
      | none => simp [handle_event, State.render]
      | some e => cases e <;> simp [handle_event, State.render]
  · intro s acq
    cases acq with
    | none => rfl
    | some e => cases e <;> rfl

/-- C4 counterexample: at the concrete 450-by-400 state, an `Outdated`
surface error is not reconfigured: the `match` in `run`
(`src/lib.rs` lines 82-87) names only `Lost` and `OutOfMemory`, so
`Outdated` falls to the catch-all arm, which logs the error and makes no
`resize` call. -/
theorem c4_outdated_is_only_logged :
    handle_event test_state MEvent.redraw_requested (some SurfaceError.outdated)
      = (test_state,
          [LoopCall.call_render, LoopCall.log_error SurfaceError.outdated], []) ∧
    LoopCall.call_resize test_state.size
      ∉ (handle_event test_state MEvent.redraw_requested
          (some SurfaceError.outdated)).2.1 := by
  refine ⟨rfl, ?_⟩
  decide

/-- C4 amended: after a failed `render()`, the event loop reconfigures the
surface at the last known size only on `Lost`; it exits on `OutOfMemory`;
and it logs and skips the frame on every other error, `Outdated` and
`Timeout` included.  In every error case no GPU command was recorded for
the frame. -/
theorem c4_surface_error_dispatch (s : State) :
    handle_event s MEvent.redraw_requested (some SurfaceError.lost)
      = ((s.resize s.size).1,
          [LoopCall.call_render, LoopCall.call_resize s.size], []) ∧
    handle_event s MEvent.redraw_requested (some SurfaceError.outOfMemory)
      = (s, [LoopCall.call_render, LoopCall.exit_loop], []) ∧
    handle_event s MEvent.redraw_requested (some SurfaceError.outdated)
      = (s, [LoopCall.call_render, LoopCall.log_error SurfaceError.outdated], []) ∧
    handle_event s MEvent.redraw_requested (some SurfaceError.timeout)
      = (s, [LoopCall.call_render, LoopCall.log_error SurfaceError.timeout], []) :=
  ⟨rfl, rfl, rfl, rfl⟩

/-- C5: instance generation is a pure function of the constants
`NUM_INSTANCES_PER_ROW = 10` and `INSTANCE_DISPLACEMENT`, producing the
ordered sequence of one hundred cells (`x = i % 10`, `z = i / 10`); each
cell's position is `(x, 0, z) - displacement`; the position is the origin
exactly at cell `(5, 5)`, where the rotation is exactly the identity
quaternion (the 0-degree rotation around `unit_z`, taken without
normalizing the zero vector); every other cell carries the 45-degree
rotation about its normalized position; and two evaluations yield the same
sequence. -/
theorem c5_instance_generation :
    make_instances.length = 100 ∧
    (∀ i : Fin 100,
        make_instances[(i : Nat)]?
          = some (make_instance ((i : Nat) % 10) ((i : Nat) / 10))) ∧
    (∀ x z : Fin 10,
        (make_instance x z).position
          = ⟨((x : Nat) : ℚ) - 5, 0, ((z : Nat) : ℚ) - 5⟩) ∧
    (∀ x z : Fin 10,
        ((make_instance x z).position = Vec3.zero ↔ (x : Nat) = 5 ∧ (z : Nat) = 5)) ∧
    (make_instance 5 5).rotation = MQuat.identity ∧
    (∀ x z : Fin 10,
        (make_instance x z).rotation
          = if (make_instance x z).position = Vec3.zero
            then from_axis_angle unit_zR 0
            else from_axis_angle
                  (Vec3R.normalize (Vec3.toR (make_instance x z).position)) 45) ∧
    make_instances = make_instances := by
  refine ⟨?_, ?_, ?_, ?_, ?_, fun x z => rfl, rfl⟩
  · rw [make_instances_eq_map_range]
    simp
  · intro i
    rw [make_instances_eq_map_range]
    simp [List.getElem?_map, List.getElem?_range, i.isLt]
  · intro x z
    simp [make_instance, Vec3.sub, INSTANCE_DISPLACEMENT]
  · intro x z
    simp only [make_instance, Vec3.sub, INSTANCE_DISPLACEMENT, Vec3.zero,
      Vec3.mk.injEq, sub_eq_zero]
    constructor
    · rintro ⟨hx, -, hz⟩
      exact ⟨by exact_mod_cast hx, by exact_mod_cast hz⟩
    · rintro ⟨hx, hz⟩
      refine ⟨by exact_mod_cast hx, by norm_num, by exact_mod_cast hz⟩
  · simp only [make_instance]
    rw [if_pos (by simp [Vec3.sub, INSTANCE_DISPLACEMENT, Vec3.zero])]
    simp [from_axis_angle, degToRad, unit_zR, Vec3R.smul, MQuat.identity]

/-- C5 witness: the generated sequence is defined at flat index 55, the
cell `(x, z) = (5, 5)`. -/
theorem c5_instance_generation_witness :
    make_instances[(55 : Nat)]? = some (make_instance 5 5) := by
  have h := c5_instance_generation.2.1 ⟨55, by norm_num⟩
  exact h

/-- C6: every successful `render()` records exactly this trace: one render
pass cleared to the fixed background colour, the pipeline, the texture and
camera bind groups at slots 0 and 1, the vertex and instance buffers at
vertex-buffer slots 0 and 1, the 16-bit index buffer, one indexed draw over
`0..num_indices` and `0..instances.len()`, one command-buffer submission
and one present. -/
theorem c6_render_success_trace (s : State) :
    (s.render none).2.1
      = [ GpuCmd.begin_render_pass background_color
        , GpuCmd.set_pipeline
        , GpuCmd.set_bind_group 0 BindGroupId.diffuse
        , GpuCmd.set_bind_group 1 BindGroupId.cameraGroup
        , GpuCmd.set_vertex_buffer 0 BufferId.vertex
        , GpuCmd.set_vertex_buffer 1 BufferId.instanceBuf
        , GpuCmd.set_index_buffer BufferId.index MIndexFormat.uint16
        , GpuCmd.draw_indexed 0 s.num_indices 0 0 s.num_instances
        , GpuCmd.end_render_pass
        , GpuCmd.submit 1
        , GpuCmd.present ] ∧
    ((s.render none).2.1.countP fun c =>
        match c with
        | GpuCmd.begin_render_pass _ => true
        | _ => false) = 1 ∧
    ((s.render none).2.1.countP fun c =>
        match c with
        | GpuCmd.submit _ => true
        | _ => false) = 1 ∧
    ((s.render none).2.1.countP fun c =>
        match c with
        | GpuCmd.present => true
        | _ => false) = 1 ∧
    (s.render none).2.2 = none :=
  ⟨rfl, rfl, rfl, rfl, rfl⟩

/-- C7: `get_surface_configuration` chooses the first sRGB-capable format
of the adapter's reported list when one exists and the first reported
format otherwise (so the chosen format is sRGB-capable exactly when the
adapter reports some sRGB-capable format), takes the first reported
present mode and alpha mode, and copies the window size — 450 by 400 for a
450-by-400 window. -/
theorem c7_surface_configuration_selection
    (f0 : TextureFormat) (fs : List TextureFormat)
    (p0 : Nat) (ps : List Nat) (a0 : Nat) (als : List Nat)
    (size : PhysicalSize) :
    get_surface_configuration ⟨f0 :: fs, p0 :: ps, a0 :: als⟩ size
      = some
        { format := ((f0 :: fs).find? (fun f => f.is_srgb)).getD f0
          width := size.width
          height := size.height
          present_mode := p0
          alpha_mode := a0
          desired_maximum_frame_latency := 2 } ∧
    (((f0 :: fs).find? (fun f => f.is_srgb)).getD f0).is_srgb
      = (f0 :: fs).any (fun f => f.is_srgb) ∧
    (get_surface_configuration test_caps ⟨450, 400⟩).map
        (fun c => (c.width, c.height, c.format.is_srgb))
      = some (450, 400, true) := by
  refine ⟨?_, ?_, rfl⟩
  · simp [get_surface_configuration, filter_headD_eq_find_getD]
  · cases hf : (f0 :: fs).find? (fun f => f.is_srgb) with
    | some f =>
      have hp : f.is_srgb = true := List.find?_some hf
      have hm : f ∈ f0 :: fs := List.mem_of_find?_eq_some hf
      have ha : (f0 :: fs).any (fun f => f.is_srgb) = true :=
        List.any_eq_true.mpr ⟨f, hm, hp⟩
      simp [hp, ha]
    | none =>
      have hall := List.find?_eq_none.mp hf
      have h0 : f0.is_srgb = false := by
        have := hall f0 (List.mem_cons_self f0 fs)
        simpa using this
      have ha : (f0 :: fs).any (fun f => f.is_srgb) = false := by
        simp only [List.any_eq_false]
        intro f hfm
        simpa using hall f hfm
      simp [h0, ha]

/-- C8: `render()` is atomic per frame: when swapchain-image acquisition
fails, the error is returned with no command recorded, submitted or
presented and the state bit-identical; on success, the state is likewise
untouched and the recorded trace submits one command buffer and
presents. -/
theorem c8_render_frame_atomicity :
    (∀ (s : State) (e : SurfaceError), s.render (some e) = (s, [], some e)) ∧
    (∀ s : State,
        (s.render none).1 = s ∧
        (s.render none).2.2 = none ∧
        GpuCmd.submit 1 ∈ (s.render none).2.1 ∧
        GpuCmd.present ∈ (s.render none).2.1) := by
  refine ⟨fun s e => rfl, fun s => ⟨rfl, rfl, ?_, ?_⟩⟩ <;>
    simp [State.render]

/-- C9: `Texture::from_bytes` forwards any decode failure of the external
`image::load_from_memory` as a typed recoverable `Err` value (its return
type is `Result`; there is no panicking path), and on a successful decode
returns a texture whose width and height are the decoded image's
dimensions (in `Rgba8UnormSrgb`). -/
theorem c9_texture_loader (load_from_memory : List Nat → Except String MImage)
    (bytes : List Nat) :
    (∀ e, load_from_memory bytes = Except.error e →
        from_bytes load_from_memory bytes = Except.error e) ∧
    (∀ img, load_from_memory bytes = Except.ok img →
        from_bytes load_from_memory bytes
          = Except.ok ⟨img.width, img.height, true⟩) := by
  constructor
  · intro e h
    simp only [from_bytes, h]
    rfl
  · intro img h
    simp only [from_bytes, h]
    rfl

/-- C9 witness: with the concrete decoder, the accepted input yields a
3-by-2 texture and the rejected input surfaces the decoder's error. -/
theorem c9_texture_loader_witness :
    from_bytes test_decoder [255, 216, 255] = Except.ok ⟨3, 2, true⟩ ∧
    from_bytes test_decoder [0] = Except.error "decode failed" :=
  ⟨(c9_texture_loader test_decoder [255, 216, 255]).2 ⟨3, 2⟩ rfl,
    (c9_texture_loader test_decoder [0]).1 "decode failed" rfl⟩

/-- C10: `PipelineBuilder::build` has no recoverable error value: it
panics (aborting startup) when the shader file at
`current_dir()/src/shaders/<filename>` cannot be read or when the source
fails WGSL validation, and otherwise returns the pipeline directly, built
from the configured entry points and pixel format; every outcome that is
not a pipeline is a panic. -/
theorem c10_pipeline_build_fatal (b : PipelineBuilder) (cwd : String)
    (read_to_string : String → Option String) (wgsl_compiles : String → Bool)
    (n : Nat) :
    (read_to_string (shader_filepath cwd b) = none →
        b.build cwd read_to_string wgsl_compiles n
          = BuildOutcome.panic "Cannot read the shader source file.") ∧
    (∀ src, read_to_string (shader_filepath cwd b) = some src →
        wgsl_compiles src = false →
        b.build cwd read_to_string wgsl_compiles n
          = BuildOutcome.panic "shader module validation failed") ∧
    (∀ src, read_to_string (shader_filepath cwd b) = some src →
        wgsl_compiles src = true →
        b.build cwd read_to_string wgsl_compiles n
          = BuildOutcome.ok
              ⟨src, b.vertex_entry, b.fragment_entry, b.pixel_format, n⟩) ∧
    ((∃ p, b.build cwd read_to_string wgsl_compiles n = BuildOutcome.ok p) ∨
      (∃ m, b.build cwd read_to_string wgsl_compiles n = BuildOutcome.panic m)) := by
  refine ⟨?_, ?_, ?_, ?_⟩
  · intro h
    simp [PipelineBuilder.build, h]
  · intro src h hc
    simp [PipelineBuilder.build, h, hc]
  · intro src h hc
    simp [PipelineBuilder.build, h, hc]
  · cases hb : b.build cwd read_to_string wgsl_compiles n with
    | ok p => exact Or.inl ⟨p, rfl⟩
    | panic m => exact Or.inr ⟨m, rfl⟩

/-- C10 witness: with the concrete filesystem and an always-accepting
validator, building after `set_shader_module("vertex.wgsl", ...)` yields
the pipeline, while an empty filesystem makes the build panic. -/
theorem c10_pipeline_build_fatal_witness :
    PipelineBuilder.build
        (PipelineBuilder.set_shader_module
          PipelineBuilder.builder "vertex.wgsl" "vs_main" "fs_main")
        "/home/app" test_read_to_string (fun _ => true) 2
      = BuildOutcome.ok ⟨"fn vs_main", "vs_main", "fs_main", rgba8_unorm, 2⟩ ∧
    PipelineBuilder.build PipelineBuilder.builder "/home/app"
        (fun _ => none) (fun _ => true) 2
      = BuildOutcome.panic "Cannot read the shader source file." :=
  ⟨(c10_pipeline_build_fatal
      (PipelineBuilder.set_shader_module
        PipelineBuilder.builder "vertex.wgsl" "vs_main" "fs_main")
      "/home/app" test_read_to_string (fun _ => true) 2).2.2.1
      "fn vs_main" rfl rfl,
    (c10_pipeline_build_fatal PipelineBuilder.builder "/home/app"
      (fun _ => none) (fun _ => true) 2).1 rfl⟩

end LearnWgpu
